import Mathlib

/-!
Verification of the rentcast-backend service (src/server.js).

This file shallowly embeds the pure computational core of the service:
the JS-value helpers (pickFirst, toNumberLoose, round2), the valuation
engine (computeSimpleAVM, computeInvestmentSummary, computeARVFromComps),
the sale-comp normalizer and fallback ranking (normalizeSaleComp,
fetchRealieSaleComps fallback tier), the census derivation, and the
nearby-rentals error handling.  JS numbers are modelled as rationals
(every value the model represents is a finite number; the value None of
an Option models null/undefined or a non-finite coercion result, as the
doc comment of each definition states).
-/

/-- A JavaScript value as the server manipulates them: undefined, null,
booleans, (finite) numbers, strings, and objects (association lists). -/
inductive JSVal where
  | undef
  | null
  | boolJ (b : Bool)
  | num (q : ℚ)
  | str (s : String)
  | obj (fields : List (String × JSVal))

/-- A JavaScript object, as an association list of fields. -/
abbrev JsObj := List (String × JSVal)

/-- Property access obj[k]: the value of the first field named k,
or undefined when no such field exists. -/
def jsGet (r : JsObj) (k : String) : JSVal :=
  match r.find? (fun p => p.1 == k) with
  | some p => p.2
  | none => JSVal.undef

/-- The presence test of pickFirst (src/server.js line 52):
v !== undefined && v !== null && v !== "".  Note that the number 0 and
the boolean false pass this test. -/
def jsPresent : JSVal → Bool
  | JSVal.undef => false
  | JSVal.null => false
  | JSVal.str s => !(s == "")
  | _ => true

/-- pickFirst (src/server.js lines 49-55): return the value of the first
key whose value on the record is present (not undefined, not null, not
the empty string); null when none is.  The record argument is an Option
because every call site uses the optional-chaining access obj?.[k],
which yields undefined when the record itself is null or undefined. -/
def pickFirst (o : Option JsObj) : List String → JSVal
  | [] => JSVal.null
  | k :: ks =>
    let v := match o with
      | some r => jsGet r k
      | none => JSVal.undef
    if jsPresent v then v else pickFirst o ks

/-- JS truthiness of the values toNumberLoose produces (null or a finite
number): null and 0 are falsy, every other number (negatives included)
is truthy. -/
def jsTruthyN : Option ℚ → Bool
  | none => false
  | some q => !(q == 0)

/-- Nullish coalescing a ?? b on JS values. -/
def jsCoalesce (a b : JSVal) : JSVal :=
  match a with
  | JSVal.undef => b
  | JSVal.null => b
  | v => v

/-- JS truthiness of a general value (used by the || chains of
normalizeComp): undefined, null, false, 0 and "" are falsy. -/
def jsTruthyV : JSVal → Bool
  | JSVal.undef => false
  | JSVal.null => false
  | JSVal.boolJ b => b
  | JSVal.num q => !(q == 0)
  | JSVal.str s => !(s == "")
  | JSVal.obj _ => true

/-- Logical-or a || b on JS values. -/
def jsOr (a b : JSVal) : JSVal :=
  if jsTruthyV a then a else b

/-- Sub-object access c?.k for the nested pickFirst calls: the fields of
the value at k when that value is an object, none otherwise (property
reads on primitives yield undefined for every key the server uses, which
pickFirst treats the same as an absent record). -/
def jsGetObj (r : JsObj) (k : String) : Option JsObj :=
  match jsGet r k with
  | JSVal.obj fields => some fields
  | _ => none

/-- Value of a list of decimal digit characters (helper of the string
parser of toNumberLoose; only applied to digit characters). -/
def digitsVal (cs : List Char) : ℕ :=
  cs.foldl (fun n c => n * 10 + (c.toNat - 48)) 0

/-- JS Number() applied to a cleaned string containing only digits, dots
and minus signs (what survives the regex of toNumberLoose): an optional
leading minus, then digits with at most one dot and at least one digit;
anything else is NaN, i.e. none. -/
def parseJsNumber (cs : List Char) : Option ℚ :=
  let sign : ℚ := match cs with
    | '-' :: _ => -1
    | _ => 1
  let ds : List Char := match cs with
    | '-' :: rest => rest
    | _ => cs
  if ds.contains '-' then none
  else
    match ds.splitOn '.' with
    | [intp] =>
      if intp.isEmpty then none else some (sign * digitsVal intp)
    | [intp, fracp] =>
      if intp.isEmpty && fracp.isEmpty then none
      else some (sign * ((digitsVal intp : ℚ) + (digitsVal fracp : ℚ) / 10 ^ fracp.length))
    | _ => none

/-- toNumberLoose (src/server.js lines 57-67): undefined and null give
null; a number passes through (the model only represents finite
numbers); a string is stripped of every character that is not a digit,
a dot or a minus and then parsed, empty-after-strip or unparsable giving
null; every other type (booleans, objects) gives null. -/
def toNumberLoose : JSVal → Option ℚ
  | JSVal.undef => none
  | JSVal.null => none
  | JSVal.num q => some q
  | JSVal.str s =>
    let cleaned := s.toList.filter (fun c => c.isDigit || c == '.' || c == '-')
    if cleaned.isEmpty then none else parseJsNumber cleaned
  | JSVal.boolJ _ => none
  | JSVal.obj _ => none

/-- JS Math.round on a finite number: round to the nearest integer,
halves toward positive infinity. -/
def jsRound (x : ℚ) : ℚ :=
  ((⌊x + 1/2⌋ : ℤ) : ℚ)

/-- round2 (src/server.js lines 69-72) on a finite number:
Math.round(n*100)/100. -/
def round2 (x : ℚ) : ℚ :=
  jsRound (x * 100) / 100

/-- Positivity guard Number.isFinite(x) && x > 0 on a coerced value
(none models a non-finite coercion result). -/
def posB : Option ℚ → Bool
  | none => false
  | some q => decide (0 < q)

/-- Mean price per square foot over a list of (price, sqft) pairs
(src/server.js line 268: reduce of price/sqft from 0, divided by the
count). -/
def meanPpsf (l : List (ℚ × ℚ)) : ℚ :=
  (l.map (fun c => c.1 / c.2)).sum / (l.length : ℚ)

/-- The valid-comp filter shared by computeSimpleAVM (line 265:
Number.isFinite(price) && price > 0 && Number.isFinite(sqft) &&
sqft > 0) and computeARVFromComps (lines 578-586: truthiness plus the
same finiteness and positivity tests): on the model both predicates
keep exactly the comps whose price and sqft are present and positive.
Comps are (price, sqft) pairs, none modelling null or a non-finite
coercion result. -/
def validSaleComps (saleComps : List (Option ℚ × Option ℚ)) : List (ℚ × ℚ) :=
  saleComps.filterMap (fun c =>
    match c with
    | (some p, some s) => if 0 < p ∧ 0 < s then some (p, s) else none
    | _ => none)

/-- Result shape of computeSimpleAVM: the per-branch inputs object is
flattened into optional fields. -/
structure AVMResult where
  method : String
  estimatedMarketValue : Option ℚ
  subjectSqft : Option ℚ
  compsUsed : Option ℕ
  avgPricePerSqft : Option ℚ
  rentEstimateMonthly : Option ℚ
  capRatePercent : Option ℚ
  confidence : String
  label : String
  deriving DecidableEq

/-- computeSimpleAVM (src/server.js lines 260-294).  Every numeric
input is the result of a JS Number() coercion, modelled as Option ℚ
with none for a non-finite result (the source checks Number.isFinite).
The source default capRatePercent = 8.0 is supplied by the caller. -/
def computeSimpleAVM (subjectSqft : Option ℚ) (saleComps : List (Option ℚ × Option ℚ))
    (rentEstimateMonthly : Option ℚ) (capRatePercent : Option ℚ) : AVMResult :=
  let validComps := validSaleComps saleComps
  if posB subjectSqft && !validComps.isEmpty then
    let s := subjectSqft.getD 0
    let avg := meanPpsf validComps
    { method := "Sale comps avg $/sqft × subject sqft"
      estimatedMarketValue := some (jsRound (avg * s))
      subjectSqft := some s
      compsUsed := some validComps.length
      avgPricePerSqft := some (jsRound avg)
      rentEstimateMonthly := none
      capRatePercent := none
      confidence := if 5 ≤ validComps.length then "medium" else "low"
      label := "Estimate (Algorithmic)" }
  else if posB rentEstimateMonthly && posB capRatePercent then
    { method := "Rent estimate annualized ÷ cap rate"
      estimatedMarketValue := some (jsRound (rentEstimateMonthly.getD 0 * 12 / (capRatePercent.getD 0 / 100)))
      subjectSqft := none
      compsUsed := none
      avgPricePerSqft := none
      rentEstimateMonthly := rentEstimateMonthly
      capRatePercent := capRatePercent
      confidence := "low"
      label := "Estimate (Algorithmic)" }
  else
    { method := "Insufficient inputs"
      estimatedMarketValue := none
      subjectSqft := none
      compsUsed := none
      avgPricePerSqft := none
      rentEstimateMonthly := none
      capRatePercent := none
      confidence := "none"
      label := "Estimate (Algorithmic)" }

/-- Monthly debt service (src/server.js lines 327-332): amortizing
formula when loan amount, monthly rate and term are positive; straight
line when the rate branch fails but loan amount and term are positive;
0 otherwise.  The term n is in months. -/
def monthlyDebtService (loanAmount monthlyRate : ℚ) (n : ℕ) : ℚ :=
  if 0 < loanAmount ∧ 0 < monthlyRate ∧ 0 < n then
    loanAmount * monthlyRate / (1 - (1 + monthlyRate) ^ (-(n : ℤ)))
  else if 0 < loanAmount ∧ 0 < n then
    loanAmount / (n : ℚ)
  else 0

/-- Result record of computeInvestmentSummary (flattening the nested
assumptions / gross / noi / metrics / debt / cashFlow objects). -/
structure InvSummary where
  vacancyPercent : ℚ
  expensePercent : ℚ
  downPaymentPercent : ℚ
  interestRatePercent : ℚ
  loanYears : ℕ
  monthlyRent : ℚ
  grossAnnual : ℚ
  effectiveGrossAnnual : ℚ
  operatingExpensesAnnual : ℚ
  noiAnnual : ℚ
  grm : ℚ
  capRatePercent : ℚ
  cashOnCashPercent : Option ℚ
  purchasePrice : ℚ
  loanAmount : ℚ
  monthlyPaymentPI : ℚ
  annualDebtService : ℚ
  cashFlowMonthly : ℚ
  cashFlowAnnual : ℚ
  deriving DecidableEq

/-- computeInvestmentSummary (src/server.js lines 296-375).  The two
required inputs are Number() coercion results (none for non-finite);
the percentage assumptions are plain numbers; the loan term is
restricted to whole years (the only shape the source exercises; a
fractional term would need real exponentiation).  Source defaults:
vacancy 5, expense 35, down payment 20, interest rate 7.5, 30 years.
An Except.error models the ok:false failure record. -/
def computeInvestmentSummary (purchasePrice monthlyRent : Option ℚ)
    (vacancyPercent expensePercent downPaymentPercent interestRatePercent : ℚ)
    (loanYears : ℕ) : Except String InvSummary :=
  match purchasePrice with
  | none => Except.error "purchasePrice missing/invalid"
  | some P =>
    if P ≤ 0 then Except.error "purchasePrice missing/invalid"
    else
      match monthlyRent with
      | none => Except.error "monthlyRent missing/invalid"
      | some R =>
        if R ≤ 0 then Except.error "monthlyRent missing/invalid"
        else
          let vacancy := vacancyPercent / 100
          let expense := expensePercent / 100
          let dp := downPaymentPercent / 100
          let grossAnnual := R * 12
          let effectiveGross := grossAnnual * (1 - vacancy)
          let operatingExpenses := effectiveGross * expense
          let noi := effectiveGross - operatingExpenses
          let grm := P / grossAnnual
          let capRate := noi / P * 100
          let loanAmount := P * (1 - dp)
          let monthlyRate := interestRatePercent / 100 / 12
          let n := loanYears * 12
          let monthlyDebt := monthlyDebtService loanAmount monthlyRate n
          let annualDebt := monthlyDebt * 12
          let cashFlowAnnual := noi - annualDebt
          let cashFlowMonthly := cashFlowAnnual / 12
          let cashInvested := P * dp
          Except.ok
            { vacancyPercent := vacancyPercent
              expensePercent := expensePercent
              downPaymentPercent := downPaymentPercent
              interestRatePercent := interestRatePercent
              loanYears := loanYears
              monthlyRent := R
              grossAnnual := grossAnnual
              effectiveGrossAnnual := jsRound effectiveGross
              operatingExpensesAnnual := jsRound operatingExpenses
              noiAnnual := jsRound noi
              grm := round2 grm
              capRatePercent := round2 capRate
              cashOnCashPercent :=
                if 0 < cashInvested then some (round2 (cashFlowAnnual / cashInvested * 100)) else none
              purchasePrice := P
              loanAmount := jsRound loanAmount
              monthlyPaymentPI := jsRound monthlyDebt
              annualDebtService := jsRound annualDebt
              cashFlowMonthly := jsRound cashFlowMonthly
              cashFlowAnnual := jsRound cashFlowAnnual }

/-- Result shape of computeARVFromComps. -/
structure ARVResult where
  ok : Bool
  arv : Option ℚ
  avgPpsf : Option ℚ
  compsUsed : ℕ
  reason : Option String
  method : Option String
  deriving DecidableEq

/-- computeARVFromComps (src/server.js lines 572-601): comps-only
valuation.  It takes no rent or cap-rate input at all, so there is no
income-approach fallback by construction.  Comps are (price, sqft)
pairs as in validSaleComps. -/
def computeARVFromComps (subjectSqft : Option ℚ) (saleComps : List (Option ℚ × Option ℚ)) : ARVResult :=
  if posB subjectSqft then
    let valid := validSaleComps saleComps
    if valid.isEmpty then
      { ok := false, arv := none, avgPpsf := none, compsUsed := 0
        reason := some "no valid sale comps", method := none }
    else
      let avg := meanPpsf valid
      { ok := true
        arv := some (jsRound (avg * subjectSqft.getD 0))
        avgPpsf := some (round2 avg)
        compsUsed := valid.length
        reason := none
        method := some "avg comps $/sqft × subject sqft" }
  else
    { ok := false, arv := none, avgPpsf := none, compsUsed := 0
      reason := some "subjectSqft missing", method := none }

/-- Derived fields of the census result (src/server.js lines 210-235).
Inputs are the already-coerced unit counts (none for a non-numeric
provider value). -/
structure CensusDerived where
  vacancyRatePercent : Option ℚ
  ownerOccupiedSharePercent : Option ℚ
  renterOccupiedSharePercent : Option ℚ
  deriving DecidableEq

/-- Derivation of vacancy rate and occupancy shares (src/server.js
lines 215-221): occupied = (owner ?? 0) + (renter ?? 0); vacancy rate
requires a truthy total (non-null and nonzero) and a non-null vacant
count; each share requires truthy occupied and divides the respective
count (null coercing to 0, as in JS division) by occupied. -/
def deriveCensusStats (totalHousing vacantUnits ownerUnits renterUnits : Option ℚ) : CensusDerived :=
  let occupied : ℚ := ownerUnits.getD 0 + renterUnits.getD 0
  { vacancyRatePercent :=
      if jsTruthyN totalHousing && vacantUnits.isSome then
        some (round2 (vacantUnits.getD 0 / totalHousing.getD 0 * 100))
      else none
    ownerOccupiedSharePercent :=
      if occupied ≠ 0 then some (round2 (ownerUnits.getD 0 / occupied * 100)) else none
    renterOccupiedSharePercent :=
      if occupied ≠ 0 then some (round2 (renterUnits.getD 0 / occupied * 100)) else none }

/-- Normalized sale comp (src/server.js lines 505-512; the raw field is
not carried in the model). -/
structure SaleComp where
  address : JSVal
  price : Option ℚ
  sqft : Option ℚ
  soldDate : JSVal
  ppsf : Option ℚ

/-- normalizeSaleComp (src/server.js lines 492-513).  The ppsf guard is
the JS truthiness test price && sqft, so it fails on null and on 0 but
passes on negative numbers. -/
def normalizeSaleComp (x : JsObj) : SaleComp :=
  let price := toNumberLoose (pickFirst (some x) ["salePrice", "lastSalePrice", "transferPrice", "price"])
  let sqft := toNumberLoose (pickFirst (some x) ["buildingArea", "livingArea", "squareFeet", "sqft"])
  let soldDate := jsCoalesce (pickFirst (some x) ["saleDate", "lastSaleDate", "transferDate", "recordingDate"]) JSVal.null
  let address := jsCoalesce (pickFirst (some x) ["address", "formattedAddress", "addressFull", "addressFullUSPS"]) (JSVal.str "")
  { address := address
    price := price
    sqft := sqft
    soldDate := soldDate
    ppsf :=
      if jsTruthyN price && jsTruthyN sqft then some (round2 (price.getD 0 / sqft.getD 0))
      else none }

/-- Record count requested by the fallback search tier
(src/server.js line 542): max(limit*5, 50). -/
def fallbackRequestLimit (limit : ℕ) : ℕ :=
  max (limit * 5) 50

/-- The comps surviving normalization in the fallback tier
(src/server.js line 553): filter(c => c.price && c.sqft), JS
truthiness, so null and 0 are both discarded. -/
def survivorsOfRows (rows : List JsObj) : List SaleComp :=
  (rows.map normalizeSaleComp).filter (fun c => jsTruthyN c.price && jsTruthyN c.sqft)

/-- Sort key of the fallback ranking (src/server.js line 558):
absolute difference between the comp square footage and the subject
square footage (every survivor has a sqft, so getD 0 is exact). -/
def compSqftKey (s : ℚ) (c : SaleComp) : ℚ :=
  |c.sqft.getD 0 - s|

/-- The pure selection step of the fallback tier of
fetchRealieSaleComps (src/server.js lines 553-564): keep survivors,
then, when the subject square footage is finite and positive, stable
sort by ascending absolute sqft distance (JS Array.prototype.sort is
stable; the comparator subtracts the keys) and take the first limit;
otherwise just take the first limit. -/
def fallbackSelect (rows : List JsObj) (subjectSqft : Option ℚ) (limit : ℕ) : List SaleComp :=
  let comps := survivorsOfRows rows
  if posB subjectSqft then
    (comps.mergeSort (fun a b => decide (compSqftKey (subjectSqft.getD 0) a ≤ compSqftKey (subjectSqft.getD 0) b))).take limit
  else comps.take limit

/-- Normalized rental comp (src/server.js line 140). -/
structure RentComp where
  address : JSVal
  listedRent : Option ℚ
  distance : Option ℚ
  similarity : Option ℚ
  beds : Option ℚ
  baths : Option ℚ
  sqft : Option ℚ
  type : JSVal
  lastSeen : JSVal

/-- normalizeComp (src/server.js lines 74-141): field resolution over
the top-level record and its property / pricing / listing / avm /
features sub-objects, using || for the address chain (falsy values fall
through) and ?? for the others (only null and undefined fall
through). -/
def normalizeComp (c : JsObj) : RentComp :=
  let addr :=
    jsOr (pickFirst (some c) ["formattedAddress", "address", "fullAddress"])
      (jsOr (pickFirst (jsGetObj c "property") ["formattedAddress", "address"]) (JSVal.str ""))
  let rentRaw :=
    jsCoalesce
      (pickFirst (some c)
        ["listedRent", "rent", "price", "monthlyRent", "rentEstimate", "listPrice",
          "listingPrice", "listRent", "rentAmount"])
      (jsCoalesce
        (pickFirst (jsGetObj c "pricing") ["rent", "price", "monthlyRent", "listPrice", "listingPrice"])
        (jsCoalesce
          (pickFirst (jsGetObj c "listing") ["rent", "price", "monthlyRent", "listPrice", "listingPrice"])
          (pickFirst (jsGetObj c "avm") ["rent", "rentEstimate"])))
  let sqftRaw :=
    jsCoalesce
      (pickFirst (some c)
        ["squareFeet", "sqft", "livingArea", "area", "sizeSqft", "buildingSize",
          "squareFootage", "livingAreaSquareFeet"])
      (jsCoalesce
        (pickFirst (jsGetObj c "property") ["squareFeet", "sqft", "livingArea", "area", "sizeSqft"])
        (jsCoalesce
          (pickFirst (jsGetObj c "listing") ["squareFeet", "sqft", "livingArea", "area", "sizeSqft"])
          (pickFirst (jsGetObj c "features") ["squareFeet", "sqft", "livingArea"])))
  let bedsRaw :=
    jsCoalesce (pickFirst (some c) ["bedrooms", "beds", "bed"])
      (jsCoalesce (pickFirst (jsGetObj c "property") ["bedrooms", "beds"])
        (pickFirst (jsGetObj c "features") ["bedrooms", "beds"]))
  let bathsRaw :=
    jsCoalesce (pickFirst (some c) ["bathrooms", "baths", "bath"])
      (jsCoalesce (pickFirst (jsGetObj c "property") ["bathrooms", "baths"])
        (pickFirst (jsGetObj c "features") ["bathrooms", "baths"]))
  { address := addr
    listedRent := toNumberLoose rentRaw
    distance := toNumberLoose (pickFirst (some c) ["distance", "dist"])
    similarity := toNumberLoose (pickFirst (some c) ["similarity", "score"])
    beds := toNumberLoose bedsRaw
    baths := toNumberLoose bathsRaw
    sqft := toNumberLoose sqftRaw
    type :=
      jsCoalesce (pickFirst (some c) ["propertyType", "type"])
        (jsCoalesce (pickFirst (jsGetObj c "property") ["propertyType", "type"]) JSVal.null)
    lastSeen :=
      jsCoalesce
        (pickFirst (some c) ["lastSeen", "lastSeenDate", "lastSeenAt", "lastUpdated", "updatedAt"])
        JSVal.null }

/-- Outcome of the upstream rent AVM call behind /api/nearby-rentals:
a successful payload of raw comps, an HTTP error with a status, or a
transport error (no response, so no status). -/
inductive RentalUpstream where
  | success (rawComps : List JsObj)
  | httpFailure (status : ℕ)
  | transportFailure

/-- Response of /api/nearby-rentals, reduced to the fields the route
computes: a successful body with count, comps, optional note and
optional provider status, or an error body with the HTTP status used
and the error message. -/
inductive RentalsResponse where
  | ok (count : ℕ) (comps : List RentComp) (note : Option String) (rentcastStatus : Option ℕ)
  | err (status : ℕ) (errorMsg : String)

/-- The /api/nearby-rentals handler logic after the upstream call
(src/server.js lines 417-440): on success, normalize and return the
comps; on failure, take the provider status (500 when there is no
response), treat 400/404/422 as a successful empty result with a
"No comps found" note, and propagate every other status as an error
carrying it. -/
def nearbyRentalsOutcome (u : RentalUpstream) : RentalsResponse :=
  match u with
  | RentalUpstream.success raw =>
    let comps := raw.map normalizeComp
    RentalsResponse.ok comps.length comps none none
  | RentalUpstream.httpFailure status =>
    if status = 400 ∨ status = 404 ∨ status = 422 then
      RentalsResponse.ok 0 [] (some "No comps found") (some status)
    else RentalsResponse.err status "Failed to fetch nearby rentals"
  | RentalUpstream.transportFailure => RentalsResponse.err 500 "Failed to fetch nearby rentals"

/-- Subject square footage resolution of the property-panel route
(src/server.js lines 709-712): the RentCast record first, then the
Realie record, chained with ?? (so the number 0 from the first provider
does not fall through). -/
def resolveSubjectSqft (rentcastProp realie : Option JsObj) : Option ℚ :=
  (toNumberLoose (pickFirst rentcastProp ["squareFeet", "sqft", "livingArea", "area", "sizeSqft"])).orElse
    (fun _ => toNumberLoose (pickFirst realie ["buildingArea", "livingArea", "squareFeet", "sqft"]))

/-- Rounding discipline of a computeInvestmentSummary result: every
Math.round-ed monetary field is a whole number (denominator 1) and
every round2-ed percentage field has at most 2 decimal places (its
value times 100 has denominator 1); an error result satisfies the
predicate vacuously.  The echoed inputs monthlyRent and purchasePrice
and the raw grossAnnual field are not constrained: the source emits
them unrounded. -/
def InvRoundedOk : Except String InvSummary → Prop
  | Except.error _ => True
  | Except.ok s =>
    s.effectiveGrossAnnual.den = 1 ∧ s.operatingExpensesAnnual.den = 1 ∧
    s.noiAnnual.den = 1 ∧ s.loanAmount.den = 1 ∧ s.monthlyPaymentPI.den = 1 ∧
    s.annualDebtService.den = 1 ∧ s.cashFlowMonthly.den = 1 ∧ s.cashFlowAnnual.den = 1 ∧
    (s.grm * 100).den = 1 ∧ (s.capRatePercent * 100).den = 1 ∧
    (match s.cashOnCashPercent with
      | some c => (c * 100).den = 1
      | none => True)

/-! ## Helper lemmas -/

theorem jsRound_eval (x r : ℚ) (n : ℤ) (h1 : (n : ℚ) ≤ x + 1/2)
    (h2 : x + 1/2 < (n : ℚ) + 1) (h3 : (n : ℚ) = r) : jsRound x = r := by
  unfold jsRound
  rw [Int.floor_eq_iff.mpr ⟨h1, h2⟩, h3]

theorem round2_eval (x r : ℚ) (n : ℤ) (h1 : (n : ℚ) ≤ x * 100 + 1/2)
    (h2 : x * 100 + 1/2 < (n : ℚ) + 1) (h3 : (n : ℚ) / 100 = r) : round2 x = r := by
  unfold round2
  rw [jsRound_eval (x * 100) ((n : ℚ)) n h1 h2 rfl, h3]

theorem jsRound_den (x : ℚ) : (jsRound x).den = 1 :=
  Rat.den_intCast _

theorem round2_scaled_den (x : ℚ) : (round2 x * 100).den = 1 := by
  unfold round2
  rw [div_mul_cancel₀ _ (by norm_num : (100 : ℚ) ≠ 0)]
  exact jsRound_den _

/-! ## Claim theorems -/

/-- C6: for every record and ordered candidate-key list, pickFirst
returns the value of the first key in list order whose value on the
record is not undefined, not null and not the empty string, inspecting
only direct properties; null if no candidate key qualifies.  For the
record containing rent: null and price: 1200 with keys [rent, price]
the result is 1200. -/
theorem pickFirst_first_present (r : JsObj) (keys : List String) :
    pickFirst (some r) keys =
      (match keys.find? (fun k => jsPresent (jsGet r k)) with
        | some k => jsGet r k
        | none => JSVal.null) ∧
    pickFirst (some [("rent", JSVal.null), ("price", JSVal.num 1200)]) ["rent", "price"] =
      JSVal.num 1200 := by
  constructor
  · induction keys with
    | nil => simp [pickFirst]
    | cons k ks ih =>
      simp only [pickFirst, List.find?]
      cases h : jsPresent (jsGet r k) <;> simp [h, ih]
  · rfl

/-- C10: pickFirst treats the number 0 and the boolean false as
present (only undefined, null and the empty string fall through), a
record carrying squareFeet: 0 therefore resolves the subject square
footage to 0 instead of falling through to the second provider record,
and pickFirst on a null or undefined record returns null without
faulting. -/
theorem pickFirst_zero_false_present :
    (∀ (r : JsObj) (k : String) (ks : List String),
      jsGet r k = JSVal.num 0 → pickFirst (some r) (k :: ks) = JSVal.num 0) ∧
    (∀ (r : JsObj) (k : String) (ks : List String),
      jsGet r k = JSVal.boolJ false → pickFirst (some r) (k :: ks) = JSVal.boolJ false) ∧
    (∀ keys : List String, pickFirst none keys = JSVal.null) ∧
    resolveSubjectSqft (some [("squareFeet", JSVal.num 0)]) (some [("buildingArea", JSVal.num 1500)]) =
      some 0 := by
  refine ⟨?_, ?_, ?_, ?_⟩
  · intro r k ks h
    simp [pickFirst, h, jsPresent]
  · intro r k ks h
    simp [pickFirst, h, jsPresent]
  · intro keys
    induction keys with
    | nil => rfl
    | cons k ks ih => simp [pickFirst, jsPresent, ih]
  · rfl

/-- Witness for C10 at concrete inputs. -/
theorem pickFirst_zero_false_present_witness :
    pickFirst (some [("sqft", JSVal.num 0)]) ["sqft", "area"] = JSVal.num 0 ∧
    pickFirst (some [("flag", JSVal.boolJ false)]) ["flag"] = JSVal.boolJ false ∧
    pickFirst none ["sqft"] = JSVal.null :=
  ⟨pickFirst_zero_false_present.1 _ "sqft" ["area"] rfl,
    pickFirst_zero_false_present.2.1 _ "flag" [] rfl,
    pickFirst_zero_false_present.2.2.1 ["sqft"]⟩

/-- C8: a rental-comparables upstream failure with HTTP status 400,
404 or 422 yields a successful empty result (count 0, empty comps, a
note that no comps were found, the provider status attached); any other
failing status yields an error response carrying that status, and a
transport error (no provider response) yields an error with status
500. -/
theorem nearbyRentals_noDataStatuses (s : ℕ) :
    (s = 400 ∨ s = 404 ∨ s = 422 →
      nearbyRentalsOutcome (RentalUpstream.httpFailure s) =
        RentalsResponse.ok 0 [] (some "No comps found") (some s)) ∧
    (¬(s = 400 ∨ s = 404 ∨ s = 422) →
      nearbyRentalsOutcome (RentalUpstream.httpFailure s) =
        RentalsResponse.err s "Failed to fetch nearby rentals") ∧
    nearbyRentalsOutcome RentalUpstream.transportFailure =
      RentalsResponse.err 500 "Failed to fetch nearby rentals" := by
  refine ⟨fun h => ?_, fun h => ?_, rfl⟩ <;> simp [nearbyRentalsOutcome, h]

/-- Witness for C8 at statuses 404 and 500. -/
theorem nearbyRentals_noDataStatuses_witness :
    nearbyRentalsOutcome (RentalUpstream.httpFailure 404) =
      RentalsResponse.ok 0 [] (some "No comps found") (some 404) ∧
    nearbyRentalsOutcome (RentalUpstream.httpFailure 500) =
      RentalsResponse.err 500 "Failed to fetch nearby rentals" :=
  ⟨(nearbyRentals_noDataStatuses 404).1 (Or.inr (Or.inl rfl)),
    (nearbyRentals_noDataStatuses 500).2.1 (by decide)⟩

/-- C7: the census vacancy rate is round2(vacant/total*100), computed
only from the total and vacant unit counts (null when either is
unavailable), while the occupancy shares use the denominator
owner + renter (vacant units excluded): each equals
round2(units/(owner+renter)*100) and both are null when owner + renter
is zero.  For total 100 and vacant 10 the vacancy rate is 10. -/
theorem deriveCensusStats_spec (totalHousing vacantUnits ownerUnits renterUnits : Option ℚ) :
    (∀ t v, totalHousing = some t → vacantUnits = some v → t ≠ 0 →
      (deriveCensusStats totalHousing vacantUnits ownerUnits renterUnits).vacancyRatePercent =
        some (round2 (v / t * 100))) ∧
    (totalHousing = none ∨ vacantUnits = none →
      (deriveCensusStats totalHousing vacantUnits ownerUnits renterUnits).vacancyRatePercent = none) ∧
    (∀ o r, ownerUnits = some o → renterUnits = some r → o + r ≠ 0 →
      (deriveCensusStats totalHousing vacantUnits ownerUnits renterUnits).ownerOccupiedSharePercent =
          some (round2 (o / (o + r) * 100)) ∧
        (deriveCensusStats totalHousing vacantUnits ownerUnits renterUnits).renterOccupiedSharePercent =
          some (round2 (r / (o + r) * 100))) ∧
    (ownerUnits.getD 0 + renterUnits.getD 0 = 0 →
      (deriveCensusStats totalHousing vacantUnits ownerUnits renterUnits).ownerOccupiedSharePercent =
          none ∧
        (deriveCensusStats totalHousing vacantUnits ownerUnits renterUnits).renterOccupiedSharePercent =
          none) ∧
    (deriveCensusStats (some 100) (some 10) (some 60) (some 30)).vacancyRatePercent = some 10 := by
  refine ⟨?_, ?_, ?_, ?_, ?_⟩
  · intro t v ht hv hne
    subst ht hv
    simp [deriveCensusStats, jsTruthyN, hne]
  · intro h
    rcases h with h | h <;> subst h <;> simp [deriveCensusStats, jsTruthyN]
  · intro o r ho hr hne
    subst ho hr
    simp [deriveCensusStats, hne]
  · intro h
    simp [deriveCensusStats, h]
  · have h10 : round2 (10 : ℚ) = 10 :=
      round2_eval _ _ 1000 (by norm_num) (by norm_num) (by norm_num)
    simp [deriveCensusStats, jsTruthyN, h10]

/-- Witness for C7 at concrete unit counts. -/
theorem deriveCensusStats_spec_witness :
    (deriveCensusStats (some 100) (some 10) (some 1) (some 0)).vacancyRatePercent =
      some (round2 ((10 : ℚ) / 100 * 100)) ∧
    (deriveCensusStats (some 100) (some 10) (some 1) (some 0)).ownerOccupiedSharePercent =
      some (round2 ((1 : ℚ) / (1 + 0) * 100)) :=
  ⟨(deriveCensusStats_spec (some 100) (some 10) (some 1) (some 0)).1 100 10 rfl rfl (by decide),
    ((deriveCensusStats_spec (some 100) (some 10) (some 1) (some 0)).2.2.1 1 0 rfl rfl
      (by simp)).1⟩

/-- C1: computeSimpleAVM prefers the comps branch — after filtering the
sale comps to those with price > 0 and sqft > 0, if at least one
remains and the subject square footage is a finite positive number, the
estimate is round(mean(price/sqft) * subjectSqft) with confidence
medium when at least 5 comps were used and low otherwise; else, when
the monthly rent and cap rate are positive, the estimate is
round(rent*12 / (capRate/100)) with confidence low; else the
insufficient variant with a null estimate and confidence none.  For
subject sqft 1000 and comps (100000, 1000), (120000, 1200) the
estimate is 100000 with confidence low. -/
theorem computeSimpleAVM_spec (subjectSqft rentEstimateMonthly capRatePercent : Option ℚ)
    (saleComps : List (Option ℚ × Option ℚ)) :
    (∀ s, subjectSqft = some s → 0 < s → validSaleComps saleComps ≠ [] →
      computeSimpleAVM subjectSqft saleComps rentEstimateMonthly capRatePercent =
        { method := "Sale comps avg $/sqft × subject sqft"
          estimatedMarketValue := some (jsRound (meanPpsf (validSaleComps saleComps) * s))
          subjectSqft := some s
          compsUsed := some (validSaleComps saleComps).length
          avgPricePerSqft := some (jsRound (meanPpsf (validSaleComps saleComps)))
          rentEstimateMonthly := none
          capRatePercent := none
          confidence := if 5 ≤ (validSaleComps saleComps).length then "medium" else "low"
          label := "Estimate (Algorithmic)" }) ∧
    (∀ r c, (posB subjectSqft = false ∨ validSaleComps saleComps = []) →
      rentEstimateMonthly = some r → 0 < r → capRatePercent = some c → 0 < c →
      computeSimpleAVM subjectSqft saleComps rentEstimateMonthly capRatePercent =
        { method := "Rent estimate annualized ÷ cap rate"
          estimatedMarketValue := some (jsRound (r * 12 / (c / 100)))
          subjectSqft := none
          compsUsed := none
          avgPricePerSqft := none
          rentEstimateMonthly := some r
          capRatePercent := some c
          confidence := "low"
          label := "Estimate (Algorithmic)" }) ∧
    ((posB subjectSqft = false ∨ validSaleComps saleComps = []) →
      (posB rentEstimateMonthly = false ∨ posB capRatePercent = false) →
      computeSimpleAVM subjectSqft saleComps rentEstimateMonthly capRatePercent =
        { method := "Insufficient inputs"
          estimatedMarketValue := none
          subjectSqft := none
          compsUsed := none
          avgPricePerSqft := none
          rentEstimateMonthly := none
          capRatePercent := none
          confidence := "none"
          label := "Estimate (Algorithmic)" }) ∧
    (computeSimpleAVM (some 1000) [(some 100000, some 1000), (some 120000, some 1200)]
        none (some 8)).estimatedMarketValue = some 100000 ∧
    (computeSimpleAVM (some 1000) [(some 100000, some 1000), (some 120000, some 1200)]
        none (some 8)).confidence = "low" := by
  have hv : validSaleComps [(some (100000 : ℚ), some (1000 : ℚ)), (some 120000, some 1200)] =
      [(100000, 1000), (120000, 1200)] := by
    simp [validSaleComps]
  have hmean : meanPpsf [((100000 : ℚ), 1000), (120000, 1200)] = 100 := by
    norm_num [meanPpsf]
  have hest : jsRound ((100 : ℚ) * 1000) = 100000 :=
    jsRound_eval _ _ 100000 (by norm_num) (by norm_num) (by norm_num)
  refine ⟨?_, ?_, ?_, ?_, ?_⟩
  · intro s hs hp hn
    subst hs
    have hb : posB (some s) = true := by simp [posB, hp]
    have hne : (validSaleComps saleComps).isEmpty = false := by
      simp [List.isEmpty_iff, hn]
    simp [computeSimpleAVM, hb, hne]
  · intro r c h hr hrp hc hcp
    subst hr hc
    have hcond : (posB subjectSqft && !(validSaleComps saleComps).isEmpty) = false := by
      rcases h with h | h
      · simp [h]
      · simp [h]
    have hb2 : posB (some r) = true := by simp [posB, hrp]
    have hb3 : posB (some c) = true := by simp [posB, hcp]
    simp [computeSimpleAVM, hcond, hb2, hb3]
  · intro h h2
    have hcond : (posB subjectSqft && !(validSaleComps saleComps).isEmpty) = false := by
      rcases h with h | h
      · simp [h]
      · simp [h]
    have hcond2 : (posB rentEstimateMonthly && posB capRatePercent) = false := by
      rcases h2 with h2 | h2 <;> simp [h2]
    simp [computeSimpleAVM, hcond, hcond2]
  · have hb : posB (some (1000 : ℚ)) = true := by simp [posB]
    simp [computeSimpleAVM, hv, hb, hmean, hest]
  · have hb : posB (some (1000 : ℚ)) = true := by simp [posB]
    simp [computeSimpleAVM, hv, hb]

/-- Witness for C1: the three branches applied at concrete inputs. -/
theorem computeSimpleAVM_spec_witness :
    computeSimpleAVM (some 1000) [(some 100000, some 1000), (some 120000, some 1200)]
        none (some 8) =
      { method := "Sale comps avg $/sqft × subject sqft"
        estimatedMarketValue :=
          some (jsRound (meanPpsf (validSaleComps
            [(some 100000, some 1000), (some 120000, some 1200)]) * 1000))
        subjectSqft := some 1000
        compsUsed := some (validSaleComps
          [(some 100000, some 1000), (some 120000, some 1200)]).length
        avgPricePerSqft :=
          some (jsRound (meanPpsf (validSaleComps
            [(some 100000, some 1000), (some 120000, some 1200)])))
        rentEstimateMonthly := none
        capRatePercent := none
        confidence :=
          if 5 ≤ (validSaleComps
            [(some 100000, some 1000), (some 120000, some 1200)]).length then "medium" else "low"
        label := "Estimate (Algorithmic)" } ∧
    computeSimpleAVM none [] (some 2000) (some 8) =
      { method := "Rent estimate annualized ÷ cap rate"
        estimatedMarketValue := some (jsRound ((2000 : ℚ) * 12 / (8 / 100)))
        subjectSqft := none
        compsUsed := none
        avgPricePerSqft := none
        rentEstimateMonthly := some 2000
        capRatePercent := some 8
        confidence := "low"
        label := "Estimate (Algorithmic)" } ∧
    computeSimpleAVM none [] none none =
      { method := "Insufficient inputs"
        estimatedMarketValue := none
        subjectSqft := none
        compsUsed := none
        avgPricePerSqft := none
        rentEstimateMonthly := none
        capRatePercent := none
        confidence := "none"
        label := "Estimate (Algorithmic)" } :=
  ⟨(computeSimpleAVM_spec (some 1000) none (some 8)
      [(some 100000, some 1000), (some 120000, some 1200)]).1 1000 rfl (by decide)
      (by simp [validSaleComps]),
    (computeSimpleAVM_spec none (some 2000) (some 8) []).2.1 2000 8 (Or.inl rfl) rfl
      (by decide) rfl (by decide),
    (computeSimpleAVM_spec none none none []).2.2.1 (Or.inl rfl) (Or.inl rfl)⟩

/-- C4: computeARVFromComps returns ok false with a reason and a null
ARV whenever the subject square footage is not a finite positive number
or no sale comp has positive price and positive square footage — it
takes no rent or cap-rate input, so there is no income-approach
fallback — and otherwise returns ok true with
arv = round(mean(price/sqft) * subjectSqft) and compsUsed the number of
valid comps. -/
theorem computeARVFromComps_spec (subjectSqft : Option ℚ)
    (saleComps : List (Option ℚ × Option ℚ)) :
    (posB subjectSqft = false →
      computeARVFromComps subjectSqft saleComps =
        { ok := false, arv := none, avgPpsf := none, compsUsed := 0
          reason := some "subjectSqft missing", method := none }) ∧
    (∀ s, subjectSqft = some s → 0 < s → validSaleComps saleComps = [] →
      computeARVFromComps subjectSqft saleComps =
        { ok := false, arv := none, avgPpsf := none, compsUsed := 0
          reason := some "no valid sale comps", method := none }) ∧
    (∀ s, subjectSqft = some s → 0 < s → validSaleComps saleComps ≠ [] →
      computeARVFromComps subjectSqft saleComps =
        { ok := true
          arv := some (jsRound (meanPpsf (validSaleComps saleComps) * s))
          avgPpsf := some (round2 (meanPpsf (validSaleComps saleComps)))
          compsUsed := (validSaleComps saleComps).length
          reason := none
          method := some "avg comps $/sqft × subject sqft" }) := by
  refine ⟨?_, ?_, ?_⟩
  · intro h
    simp [computeARVFromComps, h]
  · intro s hs hp he
    subst hs
    have hb : posB (some s) = true := by simp [posB, hp]
    simp [computeARVFromComps, hb, he]
  · intro s hs hp hn
    subst hs
    have hb : posB (some s) = true := by simp [posB, hp]
    have hne : (validSaleComps saleComps).isEmpty = false := by
      simp [List.isEmpty_iff, hn]
    simp [computeARVFromComps, hb, hne]

/-- Witness for C4: a missing subject, a subject with no valid comp
despite a usable rent elsewhere, and a successful comps case. -/
theorem computeARVFromComps_spec_witness :
    computeARVFromComps none [(some 100000, some 1000)] =
      { ok := false, arv := none, avgPpsf := none, compsUsed := 0
        reason := some "subjectSqft missing", method := none } ∧
    computeARVFromComps (some 1200) [] =
      { ok := false, arv := none, avgPpsf := none, compsUsed := 0
        reason := some "no valid sale comps", method := none } ∧
    computeARVFromComps (some 1000) [(some 100000, some 1000)] =
      { ok := true
        arv := some (jsRound (meanPpsf (validSaleComps [(some 100000, some 1000)]) * 1000))
        avgPpsf := some (round2 (meanPpsf (validSaleComps [(some 100000, some 1000)])))
        compsUsed := (validSaleComps [(some 100000, some 1000)]).length
        reason := none
        method := some "avg comps $/sqft × subject sqft" } :=
  ⟨(computeARVFromComps_spec none [(some 100000, some 1000)]).1 rfl,
    (computeARVFromComps_spec (some 1200) []).2.1 1200 rfl (by decide) rfl,
    (computeARVFromComps_spec (some 1000) [(some 100000, some 1000)]).2.2 1000 rfl (by decide)
      (by simp [validSaleComps])⟩

/-- C2: computeInvestmentSummary fails (ok:false) when the purchase
price or monthly rent is not a finite positive number; otherwise it
returns grossAnnual = R*12, effectiveGross = grossAnnual*(1-vacancy/100),
operatingExpenses = effectiveGross*expense/100, NOI = effectiveGross -
operatingExpenses, GRM = P/grossAnnual, capRate = NOI/P*100,
loanAmount = P*(1-downPayment/100), the amortizing monthly debt service
when rate and term are positive (straight line at zero rate, 0 when
loan amount or term is non-positive), cashFlowAnnual = NOI - annual
debt service, and cash-on-cash = cashFlowAnnual/cashInvested*100 when
cashInvested = P*downPayment/100 is positive, null otherwise (monetary
fields carry the rounding of C3).  At P=200000, R=2000, vacancy 5,
expense 35, down payment 20: grossAnnual 24000, effectiveGross 22800,
NOI 14820, cap rate 7.41, loanAmount 160000. -/
theorem computeInvestmentSummary_spec (pp rr : Option ℚ) (v e d i : ℚ) (y : ℕ) :
    (pp = none ∨ (∃ p, pp = some p ∧ p ≤ 0) ∨ rr = none ∨ (∃ r, rr = some r ∧ r ≤ 0) →
      ∃ msg, computeInvestmentSummary pp rr v e d i y = Except.error msg) ∧
    (∀ P R, pp = some P → rr = some R → 0 < P → 0 < R →
      computeInvestmentSummary pp rr v e d i y = Except.ok
        { vacancyPercent := v
          expensePercent := e
          downPaymentPercent := d
          interestRatePercent := i
          loanYears := y
          monthlyRent := R
          grossAnnual := R * 12
          effectiveGrossAnnual := jsRound (R * 12 * (1 - v / 100))
          operatingExpensesAnnual := jsRound (R * 12 * (1 - v / 100) * (e / 100))
          noiAnnual := jsRound (R * 12 * (1 - v / 100) - R * 12 * (1 - v / 100) * (e / 100))
          grm := round2 (P / (R * 12))
          capRatePercent :=
            round2 ((R * 12 * (1 - v / 100) - R * 12 * (1 - v / 100) * (e / 100)) / P * 100)
          cashOnCashPercent :=
            if 0 < P * (d / 100) then
              some (round2 ((R * 12 * (1 - v / 100) - R * 12 * (1 - v / 100) * (e / 100) -
                monthlyDebtService (P * (1 - d / 100)) (i / 100 / 12) (y * 12) * 12) /
                  (P * (d / 100)) * 100))
            else none
          purchasePrice := P
          loanAmount := jsRound (P * (1 - d / 100))
          monthlyPaymentPI := jsRound (monthlyDebtService (P * (1 - d / 100)) (i / 100 / 12) (y * 12))
          annualDebtService :=
            jsRound (monthlyDebtService (P * (1 - d / 100)) (i / 100 / 12) (y * 12) * 12)
          cashFlowMonthly :=
            jsRound ((R * 12 * (1 - v / 100) - R * 12 * (1 - v / 100) * (e / 100) -
              monthlyDebtService (P * (1 - d / 100)) (i / 100 / 12) (y * 12) * 12) / 12)
          cashFlowAnnual :=
            jsRound (R * 12 * (1 - v / 100) - R * 12 * (1 - v / 100) * (e / 100) -
              monthlyDebtService (P * (1 - d / 100)) (i / 100 / 12) (y * 12) * 12) }) ∧
    (∀ (L r : ℚ) (n : ℕ),
      (0 < L → 0 < r → 0 < n →
        monthlyDebtService L r n = L * r / (1 - (1 + r) ^ (-(n : ℤ)))) ∧
      (0 < L → r = 0 → 0 < n → monthlyDebtService L r n = L / (n : ℚ)) ∧
      (L ≤ 0 ∨ n = 0 → monthlyDebtService L r n = 0)) ∧
    (computeInvestmentSummary (some 200000) (some 2000) 5 35 20 (15/2) 30).map
        (fun s => (s.grossAnnual, s.effectiveGrossAnnual, s.noiAnnual, s.capRatePercent,
          s.loanAmount)) =
      Except.ok (24000, 22800, 14820, 741/100, 160000) := by
  refine ⟨?_, ?_, ?_, ?_⟩
  · rintro (h | ⟨p, hp, hle⟩ | h | ⟨r, hr, hle⟩)
    · subst h
      exact ⟨_, rfl⟩
    · subst hp
      exact ⟨"purchasePrice missing/invalid", by simp [computeInvestmentSummary, if_pos hle]⟩
    · subst h
      cases pp with
      | none => exact ⟨_, rfl⟩
      | some P =>
        by_cases hP : P ≤ 0
        · exact ⟨"purchasePrice missing/invalid", by simp [computeInvestmentSummary, if_pos hP]⟩
        · exact ⟨"monthlyRent missing/invalid", by simp [computeInvestmentSummary, if_neg hP]⟩
    · subst hr
      cases pp with
      | none => exact ⟨_, rfl⟩
      | some P =>
        by_cases hP : P ≤ 0
        · exact ⟨"purchasePrice missing/invalid", by simp [computeInvestmentSummary, if_pos hP]⟩
        · exact ⟨"monthlyRent missing/invalid",
            by simp [computeInvestmentSummary, if_neg hP, if_pos hle]⟩
  · intro P R hP hR hp hr
    subst hP hR
    simp only [computeInvestmentSummary, if_neg (not_le.2 hp), if_neg (not_le.2 hr)]
  · intro L r n
    refine ⟨fun hL hr hn => ?_, fun hL hr hn => ?_, fun h => ?_⟩
    · unfold monthlyDebtService
      rw [if_pos ⟨hL, hr, hn⟩]
    · unfold monthlyDebtService
      rw [if_neg (by rintro ⟨-, h2, -⟩; rw [hr] at h2; exact lt_irrefl 0 h2), if_pos ⟨hL, hn⟩]
    · unfold monthlyDebtService
      rcases h with h | h
      · rw [if_neg (by rintro ⟨h1, -, -⟩; exact absurd h1 (not_lt.2 h)),
          if_neg (by rintro ⟨h1, -⟩; exact absurd h1 (not_lt.2 h))]
      · rw [if_neg (by rintro ⟨-, -, h1⟩; simp [h] at h1),
          if_neg (by rintro ⟨-, h1⟩; simp [h] at h1)]
  · have h1 : jsRound (22800 : ℚ) = 22800 :=
      jsRound_eval _ _ 22800 (by norm_num) (by norm_num) (by norm_num)
    have h2 : jsRound (14820 : ℚ) = 14820 :=
      jsRound_eval _ _ 14820 (by norm_num) (by norm_num) (by norm_num)
    have h3 : round2 (741 / 100 : ℚ) = 741 / 100 :=
      round2_eval _ _ 741 (by norm_num) (by norm_num) (by norm_num)
    have h4 : jsRound (160000 : ℚ) = 160000 :=
      jsRound_eval _ _ 160000 (by norm_num) (by norm_num) (by norm_num)
    norm_num [computeInvestmentSummary, Except.map, h1, h2, h3, h4]

/-- Witness for C2: the failure case at a missing price, the success
case at P=200000 and R=2000 with an 8 percent rate over 30 years, and
the three debt-service branches at concrete loans. -/
theorem computeInvestmentSummary_spec_witness :
    (∃ msg, computeInvestmentSummary none (some 2000) 5 35 20 8 30 = Except.error msg) ∧
    computeInvestmentSummary (some 200000) (some 2000) 5 35 20 8 30 = Except.ok
      { vacancyPercent := 5
        expensePercent := 35
        downPaymentPercent := 20
        interestRatePercent := 8
        loanYears := 30
        monthlyRent := 2000
        grossAnnual := (2000 : ℚ) * 12
        effectiveGrossAnnual := jsRound ((2000 : ℚ) * 12 * (1 - 5 / 100))
        operatingExpensesAnnual := jsRound ((2000 : ℚ) * 12 * (1 - 5 / 100) * (35 / 100))
        noiAnnual := jsRound ((2000 : ℚ) * 12 * (1 - 5 / 100) - 2000 * 12 * (1 - 5 / 100) * (35 / 100))
        grm := round2 ((200000 : ℚ) / (2000 * 12))
        capRatePercent :=
          round2 (((2000 : ℚ) * 12 * (1 - 5 / 100) - 2000 * 12 * (1 - 5 / 100) * (35 / 100)) /
            200000 * 100)
        cashOnCashPercent :=
          if 0 < (200000 : ℚ) * (20 / 100) then
            some (round2 (((2000 : ℚ) * 12 * (1 - 5 / 100) - 2000 * 12 * (1 - 5 / 100) * (35 / 100) -
              monthlyDebtService ((200000 : ℚ) * (1 - 20 / 100)) ((8 : ℚ) / 100 / 12) (30 * 12) * 12) /
                ((200000 : ℚ) * (20 / 100)) * 100))
          else none
        purchasePrice := 200000
        loanAmount := jsRound ((200000 : ℚ) * (1 - 20 / 100))
        monthlyPaymentPI :=
          jsRound (monthlyDebtService ((200000 : ℚ) * (1 - 20 / 100)) ((8 : ℚ) / 100 / 12) (30 * 12))
        annualDebtService :=
          jsRound (monthlyDebtService ((200000 : ℚ) * (1 - 20 / 100)) ((8 : ℚ) / 100 / 12) (30 * 12) * 12)
        cashFlowMonthly :=
          jsRound (((2000 : ℚ) * 12 * (1 - 5 / 100) - 2000 * 12 * (1 - 5 / 100) * (35 / 100) -
            monthlyDebtService ((200000 : ℚ) * (1 - 20 / 100)) ((8 : ℚ) / 100 / 12) (30 * 12) * 12) / 12)
        cashFlowAnnual :=
          jsRound ((2000 : ℚ) * 12 * (1 - 5 / 100) - 2000 * 12 * (1 - 5 / 100) * (35 / 100) -
            monthlyDebtService ((200000 : ℚ) * (1 - 20 / 100)) ((8 : ℚ) / 100 / 12) (30 * 12) * 12) } ∧
    monthlyDebtService 100000 1 360 = 100000 * 1 / (1 - (1 + 1) ^ (-(360 : ℤ))) ∧
    monthlyDebtService 100000 0 360 = 100000 / (360 : ℚ) ∧
    monthlyDebtService 0 1 360 = 0 :=
  ⟨(computeInvestmentSummary_spec none (some 2000) 5 35 20 8 30).1 (Or.inl rfl),
    (computeInvestmentSummary_spec (some 200000) (some 2000) 5 35 20 8 30).2.1 200000 2000
      rfl rfl (by decide) (by decide),
    ((computeInvestmentSummary_spec (some 200000) (some 2000) 5 35 20 8 30).2.2.1 100000 1 360).1
      (by decide) (by decide) (by decide),
    ((computeInvestmentSummary_spec (some 200000) (some 2000) 5 35 20 8 30).2.2.1 100000 0 360).2.1
      (by decide) rfl (by decide),
    ((computeInvestmentSummary_spec (some 200000) (some 2000) 5 35 20 8 30).2.2.1 0 1 360).2.2
      (Or.inl (by decide))⟩

/-- C3 counterexample: at rent 1000.04 (= 25001/25) the emitted
grossAnnual field is 12000.48 (= 300012/25), which differs from its
nearest-whole rounding 12000 — the gross income figure is not rounded
to the nearest whole unit as the claim states. -/
theorem investment_rounding_counterexample :
    (computeInvestmentSummary (some 200000) (some (25001/25)) 5 35 20 8 30).map
        (fun s => (s.grossAnnual, jsRound s.grossAnnual)) =
      Except.ok (300012/25, 12000) ∧ (300012/25 : ℚ) ≠ 12000 := by
  have h1 : jsRound (300012 / 25 : ℚ) = 12000 :=
    jsRound_eval _ _ 12000 (by norm_num) (by norm_num) (by norm_num)
  constructor
  · norm_num [computeInvestmentSummary, Except.map, h1]
  · norm_num

/-- C3 (amended): on every successful computeInvestmentSummary result,
the effective gross, operating expenses, NOI, loan amount, monthly
payment, annual debt service and the monthly and annual cash flow are
whole numbers, and GRM, cap rate and cash-on-cash carry at most 2
decimal places; the echoed monthlyRent and purchasePrice inputs and
the grossAnnual field are emitted unrounded (the counterexample shows
grossAnnual fractional). -/
theorem investment_rounding_amended (pp rr : Option ℚ) (v e d i : ℚ) (y : ℕ) :
    InvRoundedOk (computeInvestmentSummary pp rr v e d i y) := by
  cases pp with
  | none => simp [computeInvestmentSummary, InvRoundedOk]
  | some P =>
    by_cases hP : P ≤ 0
    · simp [computeInvestmentSummary, if_pos hP, InvRoundedOk]
    · cases rr with
      | none => simp [computeInvestmentSummary, if_neg hP, InvRoundedOk]
      | some R =>
        by_cases hR : R ≤ 0
        · simp [computeInvestmentSummary, if_neg hP, if_pos hR, InvRoundedOk]
        · simp only [computeInvestmentSummary, if_neg hP, if_neg hR, InvRoundedOk]
          refine ⟨jsRound_den _, jsRound_den _, jsRound_den _, jsRound_den _, jsRound_den _,
            jsRound_den _, jsRound_den _, jsRound_den _, round2_scaled_den _,
            round2_scaled_den _, ?_⟩
          by_cases hci : 0 < P * (d / 100)
          · rw [if_pos hci]
            exact round2_scaled_den _
          · rw [if_neg hci]
            trivial

/-- C9 counterexample: a sale-comp record with price -100 and square
footage 50 — the coerced price is not greater than 0, so the claim
demands a null price-per-square-foot, but normalizeSaleComp computes
round2(-100/50) = -2 (the source guard is JS truthiness, which negative
numbers pass). -/
theorem normalizeSaleComp_ppsf_counterexample :
    (normalizeSaleComp [("salePrice", JSVal.num (-100)), ("buildingArea", JSVal.num 50)]).price =
      some (-100) ∧
    ¬(0 : ℚ) < -100 ∧
    (normalizeSaleComp [("salePrice", JSVal.num (-100)), ("buildingArea", JSVal.num 50)]).ppsf =
      some (-2) := by
  have h : round2 ((-100 : ℚ) / 50) = -2 :=
    round2_eval _ _ (-200) (by norm_num) (by norm_num) (by norm_num)
  refine ⟨rfl, by norm_num, ?_⟩
  have key : (normalizeSaleComp [("salePrice", JSVal.num (-100)), ("buildingArea", JSVal.num 50)]).ppsf =
      if jsTruthyN (some (-100 : ℚ)) && jsTruthyN (some (50 : ℚ)) then
        some (round2 ((some (-100 : ℚ)).getD 0 / (some (50 : ℚ)).getD 0))
      else none := rfl
  rw [key, if_pos (by decide)]
  simp only [Option.getD_some, h]

/-- C9 (amended): the normalized comparable's price-per-square-foot
equals round2(price/squareFeet) whenever the coerced price and square
footage are both non-null and nonzero (negative values included), and
is null whenever either is null or zero. -/
theorem normalizeSaleComp_ppsf_amended (x : JsObj) :
    (∀ p s, (normalizeSaleComp x).price = some p → (normalizeSaleComp x).sqft = some s →
      p ≠ 0 → s ≠ 0 → (normalizeSaleComp x).ppsf = some (round2 (p / s))) ∧
    ((normalizeSaleComp x).price = none ∨ (normalizeSaleComp x).price = some 0 ∨
      (normalizeSaleComp x).sqft = none ∨ (normalizeSaleComp x).sqft = some 0 →
      (normalizeSaleComp x).ppsf = none) := by
  have key : (normalizeSaleComp x).ppsf =
      if jsTruthyN (normalizeSaleComp x).price && jsTruthyN (normalizeSaleComp x).sqft then
        some (round2 ((normalizeSaleComp x).price.getD 0 / (normalizeSaleComp x).sqft.getD 0))
      else none := rfl
  constructor
  · intro p s hp hs hpne hsne
    rw [key, hp, hs]
    simp [jsTruthyN, hpne, hsne]
  · intro h
    rcases h with h | h | h | h <;> rw [key, h] <;> simp [jsTruthyN]

/-- Witness for C9 (amended) at a positive record and a zero-price
record. -/
theorem normalizeSaleComp_ppsf_amended_witness :
    (normalizeSaleComp [("salePrice", JSVal.num 100), ("buildingArea", JSVal.num 50)]).ppsf =
      some (round2 ((100 : ℚ) / 50)) ∧
    (normalizeSaleComp [("salePrice", JSVal.num 0), ("buildingArea", JSVal.num 50)]).ppsf =
      none :=
  ⟨(normalizeSaleComp_ppsf_amended [("salePrice", JSVal.num 100), ("buildingArea", JSVal.num 50)]).1
      100 50 rfl rfl (by decide) (by decide),
    (normalizeSaleComp_ppsf_amended [("salePrice", JSVal.num 0), ("buildingArea", JSVal.num 50)]).2
      (Or.inr (Or.inl rfl))⟩

/-- C5 counterexample: a record with price 0 and square footage 1000
is not missing either field — the claim therefore keeps it among the
surviving comps and returns it — but the fallback filter uses JS
truthiness, so the code discards it and returns the empty list. -/
theorem fallbackSelect_counterexample :
    fallbackSelect [[("salePrice", JSVal.num 0), ("buildingArea", JSVal.num 1000)]] none 10 = [] ∧
    (normalizeSaleComp [("salePrice", JSVal.num 0), ("buildingArea", JSVal.num 1000)]).price =
      some 0 ∧
    (normalizeSaleComp [("salePrice", JSVal.num 0), ("buildingArea", JSVal.num 1000)]).sqft =
      some 1000 ∧
    ((([[("salePrice", JSVal.num 0), ("buildingArea", JSVal.num 1000)]].map
        normalizeSaleComp).filter
          (fun c => decide (c.price ≠ none ∧ c.sqft ≠ none))).take 10).length = 1 := by
  refine ⟨?_, rfl, rfl, ?_⟩
  · have key : fallbackSelect [[("salePrice", JSVal.num 0), ("buildingArea", JSVal.num 1000)]]
        none 10 =
        (survivorsOfRows [[("salePrice", JSVal.num 0), ("buildingArea", JSVal.num 1000)]]).take
          10 := rfl
    rw [key]
    have hs : survivorsOfRows [[("salePrice", JSVal.num 0), ("buildingArea", JSVal.num 1000)]] =
        [] := by
      have hp : (normalizeSaleComp [("salePrice", JSVal.num 0),
          ("buildingArea", JSVal.num 1000)]).price = some 0 := rfl
      simp [survivorsOfRows, List.filter, hp, jsTruthyN]
    rw [hs]
    rfl
  · have hp : (normalizeSaleComp [("salePrice", JSVal.num 0),
        ("buildingArea", JSVal.num 1000)]).price = some 0 := rfl
    have hq : (normalizeSaleComp [("salePrice", JSVal.num 0),
        ("buildingArea", JSVal.num 1000)]).sqft = some 1000 := rfl
    simp [List.filter, hp, hq]

/-- C5 (amended): the fallback tier requests max(limit*5, 50) records,
normalizes them, and discards every record whose normalized price or
square footage is null or zero (the source filter is JS truthiness);
then, when a positive subject square footage is known, the returned
list is the first limit elements of the stable sort of the survivors
by ascending absolute square-footage difference (sorted, a permutation
of the survivors, and equal to the index-decorated merge sort, i.e.
ties keep their original relative order); otherwise it is the first
limit survivors in original order. -/
theorem fallbackSelect_spec (rows : List JsObj) (subjectSqft : Option ℚ) (limit : ℕ) :
    fallbackRequestLimit limit = max (limit * 5) 50 ∧
    survivorsOfRows rows = (rows.map normalizeSaleComp).filter
      (fun c => decide (c.price ≠ none ∧ c.price ≠ some 0 ∧ c.sqft ≠ none ∧ c.sqft ≠ some 0)) ∧
    (∀ s, subjectSqft = some s → 0 < s →
      ∃ l, List.Perm l (survivorsOfRows rows) ∧
        l.Pairwise (fun a b => compSqftKey s a ≤ compSqftKey s b) ∧
        l = ((survivorsOfRows rows).enum.mergeSort
          (List.enumLE (fun a b => decide (compSqftKey s a ≤ compSqftKey s b)))).map
            (fun p => p.2) ∧
        fallbackSelect rows subjectSqft limit = l.take limit ∧
        (fallbackSelect rows subjectSqft limit).Pairwise
          (fun a b => compSqftKey s a ≤ compSqftKey s b)) ∧
    (posB subjectSqft = false →
      fallbackSelect rows subjectSqft limit = (survivorsOfRows rows).take limit) := by
  refine ⟨rfl, ?_, ?_, ?_⟩
  · unfold survivorsOfRows
    refine List.filter_congr ?_
    intro c _
    cases hp : c.price <;> cases hs : c.sqft <;>
      simp [jsTruthyN, decide_eq_true_eq, Bool.and_comm, and_comm, and_assoc]
    rfl
  · intro s hs hp
    subst hs
    have hb : posB (some s) = true := by simp [posB, hp]
    have trans : ∀ a b c : SaleComp,
        (fun a b => decide (compSqftKey s a ≤ compSqftKey s b)) a b →
        (fun a b => decide (compSqftKey s a ≤ compSqftKey s b)) b c →
        (fun a b => decide (compSqftKey s a ≤ compSqftKey s b)) a c := by
      intro a b c hab hbc
      simp only [decide_eq_true_eq] at *
      exact le_trans hab hbc
    have total : ∀ a b : SaleComp,
        ((fun a b => decide (compSqftKey s a ≤ compSqftKey s b)) a b ||
          (fun a b => decide (compSqftKey s a ≤ compSqftKey s b)) b a) := by
      intro a b
      simp only [Bool.or_eq_true, decide_eq_true_eq]
      exact le_total _ _
    have hsorted := List.sorted_mergeSort trans total (survivorsOfRows rows)
    have hout : fallbackSelect rows (some s) limit =
        ((survivorsOfRows rows).mergeSort
          (fun a b => decide (compSqftKey s a ≤ compSqftKey s b))).take limit := by
      simp [fallbackSelect, hb]
    refine ⟨(survivorsOfRows rows).mergeSort
        (fun a b => decide (compSqftKey s a ≤ compSqftKey s b)),
      List.mergeSort_perm _ _, ?_, List.mergeSort_enum.symm, hout, ?_⟩
    · exact hsorted.imp (fun h => by simpa only [decide_eq_true_eq] using h)
    · rw [hout]
      exact List.Pairwise.sublist (List.take_sublist _ _)
        (hsorted.imp (fun h => by simpa only [decide_eq_true_eq] using h))
  · intro h
    simp [fallbackSelect, h]

/-- Witness for C5 (amended) at a one-record row list, subject square
footage 1000 and limit 1, plus the no-subject truncation case. -/
theorem fallbackSelect_spec_witness :
    (∃ l, List.Perm l
        (survivorsOfRows [[("salePrice", JSVal.num 100000), ("buildingArea", JSVal.num 900)]]) ∧
      l.Pairwise (fun a b => compSqftKey 1000 a ≤ compSqftKey 1000 b) ∧
      l = ((survivorsOfRows
        [[("salePrice", JSVal.num 100000), ("buildingArea", JSVal.num 900)]]).enum.mergeSort
          (List.enumLE (fun a b => decide (compSqftKey 1000 a ≤ compSqftKey 1000 b)))).map
            (fun p => p.2) ∧
      fallbackSelect [[("salePrice", JSVal.num 100000), ("buildingArea", JSVal.num 900)]]
          (some 1000) 1 = l.take 1 ∧
      (fallbackSelect [[("salePrice", JSVal.num 100000), ("buildingArea", JSVal.num 900)]]
          (some 1000) 1).Pairwise (fun a b => compSqftKey 1000 a ≤ compSqftKey 1000 b)) ∧
    fallbackSelect [[("salePrice", JSVal.num 100000), ("buildingArea", JSVal.num 900)]] none 2 =
      (survivorsOfRows [[("salePrice", JSVal.num 100000), ("buildingArea", JSVal.num 900)]]).take
        2 :=
  ⟨(fallbackSelect_spec [[("salePrice", JSVal.num 100000), ("buildingArea", JSVal.num 900)]]
      (some 1000) 1).2.2.1 1000 rfl (by decide),
    (fallbackSelect_spec [[("salePrice", JSVal.num 100000), ("buildingArea", JSVal.num 900)]]
      none 2).2.2.2 rfl⟩
